import Mathlib

/-!
Shallow embedding of `gpu_watchdog.py` (cgninety/watchdawg): a GPU
temperature watchdog that samples `nvidia-smi`, matches T-Rex miner
processes by name or command line, and drives a graceful-then-forced
shutdown sequence with a polled grace period.

Strings are modelled as lists of characters (ASCII model of Python
`str`); Python floats are modelled as exact rationals; fallible
operations return `Option`; the OS (signal delivery results, process
liveness observations) is an explicit per-process environment record.
-/

namespace GpuWatchdog

/-- Characters of a Python string. -/
abbrev Str := List Char

/-- Python `str.lower()` on one character (ASCII model). -/
def lowerChar (c : Char) : Char :=
  if 'A' ≤ c ∧ c ≤ 'Z' then Char.ofNat (c.toNat + 32) else c

/-- Python `str.lower()` (ASCII model). -/
def lowerStr (s : Str) : Str := s.map lowerChar

/-- Does the needle occur at the head of the haystack. -/
def headMatch : Str → Str → Bool
  | _, [] => true
  | [], _ :: _ => false
  | c :: cs, d :: ds => c == d && headMatch cs ds

/-- Python substring test `needle in hay` for strings. -/
def strHas : Str → Str → Bool
  | [], nd => nd.isEmpty
  | c :: cs, nd => headMatch (c :: cs) nd || strHas cs nd

/-- Python `str.strip()`: drop leading and trailing whitespace. -/
def pyStrip (s : Str) : Str :=
  ((s.dropWhile Char.isWhitespace).reverse.dropWhile Char.isWhitespace).reverse

/-- Python `temp_str.replace('.', '')`: the string with dots removed. -/
def stripDots (s : Str) : Str := s.filter (fun c => c ≠ '.')

/-- The filter on one output line of the sensor query, from
`gpu_watchdog.py` line 77: `temp_str and temp_str.replace('.', '').isdigit()`. -/
def tempTokenOk (s : Str) : Bool :=
  !s.isEmpty && !(stripDots s).isEmpty && (stripDots s).all Char.isDigit

/-- Numeric value of a digit string. -/
def digitsToNat (s : Str) : Nat :=
  s.foldl (fun a c => 10 * a + (c.toNat - 48)) 0

/-- Number of characters after the dot of a token holding at most one dot. -/
def fracLen (s : Str) : Nat :=
  (s.dropWhile (fun c => c ≠ '.')).length - 1

/-- Python `float(temp_str)` on a token made of digits and dots with at
least one digit (the only tokens that reach it in the source, since they
passed `tempTokenOk`): fails (`ValueError`) exactly when the token holds
two or more dots, and otherwise yields its exact decimal value. -/
def floatOfTempToken (s : Str) : Option ℚ :=
  if s.count '.' ≤ 1 then some (mkRat (digitsToNat (stripDots s)) (10 ^ fracLen s))
  else none

/-- Result of the `nvidia-smi` subprocess call: exit code and the output
split into lines. -/
structure CmdResult where
  returncode : Nat
  stdout : List Str
deriving DecidableEq

/-- The accumulation loop of `get_gpu_temperature` (lines 74-78): strip
each line, keep those passing `tempTokenOk`, parse them with `float`;
a parse failure raises and escapes the loop (the whole call then
returns `None`), which `none` models. -/
def collectTemps : List Str → Option (List ℚ)
  | [] => some []
  | l :: ls =>
    if tempTokenOk (pyStrip l) then
      match floatOfTempToken (pyStrip l) with
      | none => none
      | some v =>
        match collectTemps ls with
        | none => none
        | some vs => some (v :: vs)
    else collectTemps ls

/-- Lines 80-86 of the source: the reading is `max(temps)` when any
value was collected, `None` otherwise (or when a parse error escaped). -/
def parseTemps (lines : List Str) : Option ℚ :=
  match collectTemps lines with
  | none => none
  | some [] => none
  | some (t :: ts) => some (ts.foldl max t)

/-- `GPUWatchdog.get_gpu_temperature`: `none` input models the
exceptional paths (tool missing, timeout, other error); with a
subprocess result, a non-zero exit code yields `None`, and exit code 0
parses the output lines. -/
def get_gpu_temperature : Option CmdResult → Option ℚ
  | none => none
  | some r => if r.returncode = 0 then parseTemps r.stdout else none

/-- One entry of the process enumeration: pid, display name, command
line (`None` models a process with no cmdline, joined as `[]` in the
source), and whether the metadata access succeeds (`false` models
`NoSuchProcess` / `AccessDenied` raised inside the loop, which the
source skips). -/
structure ProcInfo where
  pid : Nat
  name : Str
  cmdline : Option (List Str)
  accessible : Bool
deriving DecidableEq

/-- Python `' '.join(xs)`. -/
def joinSpace (xs : List Str) : Str := List.intercalate [' '] xs

/-- The name test of line 112: any configured name, lower-cased, occurs
in the lower-cased process name. -/
def nameMatch (names : List Str) (procName : Str) : Bool :=
  names.any (fun n => strHas (lowerStr procName) (lowerStr n))

/-- The command-line test of line 117: the lower-cased joined command
line contains the literal `t-rex` or `trex`. -/
def cmdlineMatch (p : ProcInfo) : Bool :=
  strHas (lowerStr (joinSpace (p.cmdline.getD []))) ("t-rex".data) ||
  strHas (lowerStr (joinSpace (p.cmdline.getD []))) ("trex".data)

/-- `GPUWatchdog.find_trex_processes`: keep, in enumeration order, each
accessible process matching by name, or else by command line. -/
def find_trex_processes (names : List Str) (procs : List ProcInfo) : List ProcInfo :=
  procs.filter (fun p => p.accessible && (nameMatch names p.name || cmdlineMatch p))

/-- The `Config` dataclass. -/
structure Config where
  temp_threshold : ℚ
  check_interval : Nat
  grace_period : Nat
  trex_process_names : List Str
  log_level : Str
deriving DecidableEq

/-- The dataclass default of `trex_process_names`. -/
def defaultTrexNames : List Str :=
  ["t-rex.exe".data, "trex.exe".data, "t-rex".data, "trex".data]

/-- `Config()`: the dataclass defaults. -/
def defaultConfig : Config :=
  ⟨85, 10, 30, defaultTrexNames, "INFO".data⟩

/-- A parsed configuration document: the five known keys, each possibly
absent (a dict with unknown keys makes `Config(**data)` raise, which is
the malformed case, modelled as no document at all). -/
structure ConfigDoc where
  temp_threshold : Option ℚ
  check_interval : Option Nat
  grace_period : Option Nat
  trex_process_names : Option (List Str)
  log_level : Option Str
deriving DecidableEq

/-- `Config(**config_data)`: absent keys take the dataclass defaults. -/
def configOfDoc (d : ConfigDoc) : Config :=
  ⟨d.temp_threshold.getD 85, d.check_interval.getD 10, d.grace_period.getD 30,
   d.trex_process_names.getD defaultTrexNames, d.log_level.getD ("INFO".data)⟩

/-- `load_config`: a missing file, unreadable JSON or a failing
`Config(**data)` call (all modelled by `none`) falls back to
`Config()`; otherwise the parsed document is applied. -/
def load_config : Option ConfigDoc → Config
  | none => defaultConfig
  | some d => configOfDoc d

/-- `save_default_config`: the literal dict written by lines 279-285. -/
def save_default_config : ConfigDoc :=
  ⟨some 85, some 10, some 30,
   some ["t-rex.exe".data, "trex.exe".data, "t-rex".data, "trex".data],
   some ("INFO".data)⟩

/-- Observable effects of one iteration of `GPUWatchdog.run`:
whether `find_trex_processes` was invoked, whether
`graceful_shutdown_trex` was invoked, and the loop-level sleep. -/
structure TickResult where
  enumerated : Bool
  orchestrated : Bool
  sleep : Nat
deriving DecidableEq

/-- One iteration of the `GPUWatchdog.run` loop (lines 221-252):
unavailable reading warns and sleeps the check interval; a reading below
threshold sleeps the check interval; at or above threshold the processes
are enumerated, and shutdown plus the 60 second cooldown happen exactly
when targets were found. -/
def runTick (cfg : Config) (q : Option CmdResult) (procs : List ProcInfo) : TickResult :=
  match get_gpu_temperature q with
  | none => ⟨false, false, cfg.check_interval⟩
  | some t =>
    if cfg.temp_threshold ≤ t then
      if (find_trex_processes cfg.trex_process_names procs).isEmpty then
        ⟨true, false, cfg.check_interval⟩
      else ⟨true, true, 60⟩
    else ⟨false, false, cfg.check_interval⟩

/-- What the dry-run branch of `main` prints. -/
inductive DryRunReport
  | couldNotRead
  | withinSafe
  | exceedsNoTargets
  | exceedsTargets (n : Nat)
deriving DecidableEq

/-- The dry-run branch of `main` (lines 331-353). Python tests the
sampled reading with `if temp:`, which is false both for `None` and for
the float `0.0`, so a zero reading takes the could-not-read branch. -/
def dryRunReport (cfg : Config) (temp : Option ℚ) (procs : List ProcInfo) : DryRunReport :=
  match temp with
  | none => .couldNotRead
  | some t =>
    if t = 0 then .couldNotRead
    else if cfg.temp_threshold ≤ t then
      if (find_trex_processes cfg.trex_process_names procs).isEmpty then
        .exceedsNoTargets
      else .exceedsTargets (find_trex_processes cfg.trex_process_names procs).length
    else .withinSafe

/-- Result of delivering one signal to one process. -/
inductive SigRes
  | ok
  | gone
  | denied
  | oserr
  | other
deriving DecidableEq

/-- Per-process environment for one orchestration: what the OS answers
to each call the source can make. `aliveSched` records the liveness
observations of the grace-period countdown, indexed by check number
(reading past its end observes a dead process). -/
structure ProcBehavior where
  pid : Nat
  sendRes : SigRes
  aliveAfterSettle : Bool
  termRes : SigRes
  aliveSched : List Bool
  killRes : SigRes
deriving DecidableEq

/-- Liveness observation at countdown check `k`. -/
def aliveAt (p : ProcBehavior) (k : Nat) : Bool := p.aliveSched.getD k false

/-- Where a process stands after the interrupt phase of
`graceful_shutdown_trex` (lines 140-182). -/
inductive IPhase
  | exited
  | appended
  | gone
  | errSkip
deriving DecidableEq

/-- Interrupt-phase record of one process: its phase outcome, the
settle sleep it incurred, and whether `terminate()` was called. -/
structure IStep where
  phase : IPhase
  sleep : Nat
  termCalled : Bool
deriving DecidableEq

/-- The `proc.terminate()` fallback: success joins the terminated list,
`NoSuchProcess` is handled at line 179 (already terminated), other
errors at line 181 (the process is skipped). -/
def termFallback (p : ProcBehavior) : IStep :=
  match p.termRes with
  | .ok => ⟨.appended, 0, true⟩
  | .gone => ⟨.gone, 0, true⟩
  | _ => ⟨.errSkip, 0, true⟩

/-- The interrupt phase for one process. On Windows (lines 144-164) a
successful `CTRL_C_EVENT` sleeps 2 seconds then re-checks liveness,
while `OSError` / `AccessDenied` fall back to `terminate()`; a
`NoSuchProcess` or any other exception skips to the outer handlers
without a terminate call. On Unix (lines 165-175) a bare `except`
sends every send failure to the `terminate()` fallback. -/
def interruptStep (windows : Bool) (p : ProcBehavior) : IStep :=
  if windows then
    match p.sendRes with
    | .ok => if p.aliveAfterSettle then ⟨.appended, 2, false⟩ else ⟨.exited, 2, false⟩
    | .denied => termFallback p
    | .oserr => termFallback p
    | .gone => ⟨.gone, 0, false⟩
    | .other => ⟨.errSkip, 0, false⟩
  else
    match p.sendRes with
    | .ok => if p.aliveAfterSettle then ⟨.appended, 2, false⟩ else ⟨.exited, 2, false⟩
    | _ => termFallback p

/-- The `terminated_processes` list built by the interrupt phase. -/
def terminatedOf (windows : Bool) (ps : List ProcBehavior) : List ProcBehavior :=
  ps.filter (fun p => (interruptStep windows p).phase == IPhase.appended)

/-- `sum(1 for proc in terminated_processes if proc.is_running())` at
countdown check `k`. -/
def aliveCount (T : List ProcBehavior) (k : Nat) : Nat :=
  (T.filter (fun p => aliveAt p k)).length

/-- Number of iterations of `range(grace_period, 0, -5)`. -/
def rangeLen (g : Nat) : Nat := (g + 4) / 5

/-- The countdown loop of lines 189-195, driven by remaining fuel and
the current check index: each iteration first counts the alive
processes, breaks when none remain, and otherwise sleeps 5 seconds.
Returns the total sleep and the check index at which the loop left
(where the final `wait_procs` status check of line 197 observes). -/
def countdown (T : List ProcBehavior) : Nat → Nat → Nat × Nat
  | 0, k => (0, k)
  | fuel + 1, k =>
    if aliveCount T k = 0 then (0, k)
    else ((countdown T fuel (k + 1)).1 + 5, (countdown T fuel (k + 1)).2)

/-- The grace-period wait (lines 185-200): skipped outright when no
process was appended; otherwise the countdown runs with
`rangeLen grace` iterations of fuel. Returns total sleep and the final
liveness-check index. -/
def gracePhase (windows : Bool) (grace : Nat) (ps : List ProcBehavior) : Nat × Nat :=
  if (terminatedOf windows ps).isEmpty then (0, 0)
  else countdown (terminatedOf windows ps) (rangeLen grace) 0

/-- Check index of the final `wait_procs` liveness observation. -/
def finalIdx (windows : Bool) (grace : Nat) (ps : List ProcBehavior) : Nat :=
  (gracePhase windows grace ps).2

/-- Total sleep of the grace-period wait. -/
def graceSleepOf (windows : Bool) (grace : Nat) (ps : List ProcBehavior) : Nat :=
  (gracePhase windows grace ps).1

/-- Reconstructed final state of one target. The source itself only
logs these; the four states of the specification are extended by
`signalErrorSkipped` for the line-181 path where both the interrupt
send and the terminate fallback failed and the process is left alone. -/
inductive Outcome
  | gracefullyExited
  | forceKilled
  | killFailed
  | alreadyGone
  | signalErrorSkipped
deriving DecidableEq

/-- Force-kill phase result for one still-alive process (lines 205-210):
`kill()` success or the logged error. -/
def killOutcome (p : ProcBehavior) : Outcome :=
  if p.killRes == SigRes.ok then .forceKilled else .killFailed

/-- Final state of one target over the whole orchestration. -/
def outcomeOf (windows : Bool) (grace : Nat) (ps : List ProcBehavior)
    (p : ProcBehavior) : Outcome :=
  match (interruptStep windows p).phase with
  | .exited => .gracefullyExited
  | .gone => .alreadyGone
  | .errSkip => .signalErrorSkipped
  | .appended =>
    if aliveAt p (finalIdx windows grace ps) then killOutcome p
    else .gracefullyExited

/-- Observable result of `graceful_shutdown_trex`: the returned value
(the Python function returns a bool), the reconstructed per-target
final states, and the sleep totals of the settle and grace phases. -/
structure ShutdownResult where
  returned : Bool
  outcomes : List (Nat × Outcome)
  settleSleep : Nat
  graceSleep : Nat
deriving DecidableEq

/-- `GPUWatchdog.graceful_shutdown_trex` (lines 129-213): empty input
returns `True` at once; otherwise the interrupt phase runs over every
process, the grace-period countdown waits on the appended ones, and
still-alive processes are force-killed. The function returns `True` on
every path. -/
def graceful_shutdown_trex (windows : Bool) (grace : Nat)
    (ps : List ProcBehavior) : ShutdownResult :=
  if ps.isEmpty then ⟨true, [], 0, 0⟩
  else
    ⟨true, ps.map (fun p => (p.pid, outcomeOf windows grace ps p)),
     (ps.map (fun p => (interruptStep windows p).sleep)).sum,
     graceSleepOf windows grace ps⟩

/-- The four final states named by the specification's
`ShutdownOutcome` record. -/
def claimedFinalStates : List Outcome :=
  [.gracefullyExited, .forceKilled, .killFailed, .alreadyGone]

/-- The values the collection loop of `get_gpu_temperature` would
gather if no parse error aborted it: the parseable values of the lines
passing `tempTokenOk`. -/
def goodVals (lines : List Str) : List ℚ :=
  ((lines.map pyStrip).filter tempTokenOk).filterMap floatOfTempToken

/-- The countdown loop sleeps at most 5 seconds per unit of fuel. -/
theorem countdown_fst_le (T : List ProcBehavior) :
    ∀ (fuel k : Nat), (countdown T fuel k).1 ≤ 5 * fuel := by
  intro fuel
  induction fuel with
  | zero => intro k; simp [countdown]
  | succ n ih =>
    intro k
    by_cases h : aliveCount T k = 0
    · simp [countdown, h]
    · simp only [countdown, h, if_false]
      have := ih (k + 1)
      omega

/-- Each interrupt-phase step sleeps at most the 2-second settle delay. -/
theorem interruptStep_sleep_le (w : Bool) (p : ProcBehavior) :
    (interruptStep w p).sleep ≤ 2 := by
  rcases p with ⟨pid, s, a, t, sch, k⟩
  cases w <;> cases s <;> cases a <;> cases t <;> simp [interruptStep, termFallback]

/-- Total settle sleep of the interrupt phase is at most 2 seconds per
target. -/
theorem settle_sum_le (w : Bool) : ∀ ps : List ProcBehavior,
    (ps.map (fun p => (interruptStep w p).sleep)).sum ≤ 2 * ps.length := by
  intro ps
  induction ps with
  | nil => simp
  | cons q l ih =>
    have h1 := interruptStep_sleep_le w q
    simp only [List.map_cons, List.sum_cons, List.length_cons]
    omega

/-- Claim C1, counterexample: with grace period 1 second and a single
target that stays alive, the grace-period polling wait sleeps a full
5-second tick, exceeding the configured 1-second grace period. -/
theorem c1_counterexample :
    (graceful_shutdown_trex false 1
      [⟨1, .ok, true, .ok, [true], .ok⟩]).graceSleep = 5 ∧
    ¬ (graceful_shutdown_trex false 1
      [⟨1, .ok, true, .ok, [true], .ok⟩]).graceSleep ≤ 1 := by
  decide

/-- Claim C1, amended: the grace-period polling wait is bounded by
5 · ⌈g/5⌉ seconds (equal to g when g is a multiple of 5, as the default
30 is, and up to 4 seconds beyond g otherwise), the settle sleep is
bounded by 2 seconds per target, and any appended target still alive at
the final liveness check is sent the force-kill rather than waited on
further. -/
theorem c1_amended (w : Bool) (g : Nat) (ps : List ProcBehavior) :
    (graceful_shutdown_trex w g ps).graceSleep ≤ 5 * ((g + 4) / 5) ∧
    (g % 5 = 0 → (graceful_shutdown_trex w g ps).graceSleep ≤ g) ∧
    (graceful_shutdown_trex w g ps).settleSleep ≤ 2 * ps.length ∧
    (∀ p ∈ ps, (interruptStep w p).phase = IPhase.appended →
      aliveAt p (finalIdx w g ps) = true →
      (p.pid, killOutcome p) ∈ (graceful_shutdown_trex w g ps).outcomes) := by
  have hgrace : (graceful_shutdown_trex w g ps).graceSleep ≤ 5 * ((g + 4) / 5) := by
    cases ps with
    | nil => simp [graceful_shutdown_trex]
    | cons q t =>
      have h1 : (graceful_shutdown_trex w g (q :: t)).graceSleep
          = graceSleepOf w g (q :: t) := rfl
      rw [h1]
      unfold graceSleepOf gracePhase
      by_cases hT : (terminatedOf w (q :: t)).isEmpty
      · simp [hT]
      · simp only [hT, Bool.false_eq_true, if_false]
        have h2 := countdown_fst_le (terminatedOf w (q :: t)) (rangeLen g) 0
        have h3 : rangeLen g = (g + 4) / 5 := rfl
        omega
  refine ⟨hgrace, ?_, ?_, ?_⟩
  · intro hg
    have : 5 * ((g + 4) / 5) = g := by omega
    omega
  · cases ps with
    | nil => simp [graceful_shutdown_trex]
    | cons q t =>
      have h1 : (graceful_shutdown_trex w g (q :: t)).settleSleep
          = ((q :: t).map (fun p => (interruptStep w p).sleep)).sum := rfl
      rw [h1]
      exact settle_sum_le w (q :: t)
  · intro p hp hphase halive
    cases ps with
    | nil => simp at hp
    | cons q t =>
      have hout : (graceful_shutdown_trex w g (q :: t)).outcomes
          = (q :: t).map (fun r => (r.pid, outcomeOf w g (q :: t) r)) := rfl
      rw [hout]
      refine List.mem_map.mpr ⟨p, hp, ?_⟩
      simp [outcomeOf, hphase, halive]

/-- Witness for `c1_amended` at a concrete environment: grace period
10 with one persistently alive target. -/
theorem c1_witness :
    (graceful_shutdown_trex false 10
      [⟨1, .ok, true, .ok, [true, true, true], .ok⟩]).graceSleep ≤ 10 ∧
    (1, Outcome.forceKilled) ∈ (graceful_shutdown_trex false 10
      [⟨1, .ok, true, .ok, [true, true, true], .ok⟩]).outcomes := by
  refine ⟨(c1_amended false 10 [⟨1, .ok, true, .ok, [true, true, true], .ok⟩]).2.1
    (by decide), ?_⟩
  exact (c1_amended false 10 [⟨1, .ok, true, .ok, [true, true, true], .ok⟩]).2.2.2
    ⟨1, .ok, true, .ok, [true, true, true], .ok⟩ (by decide) (by decide) (by decide)

/-- Claim C2: on a tick whose reading is unavailable or below the
threshold, the loop neither enumerates processes nor orchestrates a
shutdown, and sleeps exactly the check interval. -/
theorem c2_gating (cfg : Config) (q : Option CmdResult) (procs : List ProcInfo)
    (h : get_gpu_temperature q = none ∨
      ∃ t, get_gpu_temperature q = some t ∧ t < cfg.temp_threshold) :
    runTick cfg q procs = ⟨false, false, cfg.check_interval⟩ := by
  rcases h with h | ⟨t, ht, hlt⟩
  · unfold runTick
    rw [h]
  · unfold runTick
    rw [ht]
    simp [not_le.mpr hlt]

/-- Witness for `c2_gating`: the sensor query exits with code 1, so
the reading is unavailable and the tick only sleeps the default
10-second interval. -/
theorem c2_witness :
    runTick defaultConfig (some ⟨1, ["90".data]⟩) [] = ⟨false, false, 10⟩ :=
  c2_gating defaultConfig (some ⟨1, ["90".data]⟩) [] (Or.inl rfl)

/-- Claim C3, counterexample: the line `1.2.3` passes the
digits-after-dot-removal filter but fails `float`, and the raised error
escapes the collection loop, so the whole reading becomes unavailable
even though the line `50` parsed; the claim instead promises the
reading 50. -/
theorem c3_counterexample :
    get_gpu_temperature (some ⟨0, ["50".data, "1.2.3".data]⟩) = none ∧
    get_gpu_temperature (some ⟨0, ["50".data]⟩) = some 50 := by
  decide

/-- Claim C3, amended: a line failing the filter (empty, or not all
digits once dots are removed) is discarded individually without
affecting the reading; but when every filter-passing line holds at most
one dot, the reading is the maximum of their values and is unavailable
exactly when no line passes the filter — a filter-passing line with two
or more dots instead aborts the whole reading. -/
theorem c3_amended :
    (∀ (l : Str) (ls : List Str), tempTokenOk (pyStrip l) = false →
      get_gpu_temperature (some ⟨0, l :: ls⟩) = get_gpu_temperature (some ⟨0, ls⟩)) ∧
    (∀ lines : List Str,
      (∀ l ∈ lines, tempTokenOk (pyStrip l) = true → (pyStrip l).count '.' ≤ 1) →
      get_gpu_temperature (some ⟨0, lines⟩) =
        match goodVals lines with
        | [] => none
        | t :: ts => some (ts.foldl max t)) := by
  have hcollect : ∀ lines : List Str,
      (∀ l ∈ lines, tempTokenOk (pyStrip l) = true → (pyStrip l).count '.' ≤ 1) →
      collectTemps lines = some (goodVals lines) := by
    intro lines
    induction lines with
    | nil => intro h; simp [collectTemps, goodVals]
    | cons l ls ih =>
      intro h
      have hrest := ih (fun x hx => h x (List.mem_cons_of_mem l hx))
      by_cases hf : tempTokenOk (pyStrip l)
      · have hdot := h l (List.mem_cons_self l ls) hf
        simp [collectTemps, goodVals, hf, floatOfTempToken, hdot, hrest,
          List.filterMap_cons]
      · simp [collectTemps, goodVals, hf]
        simpa [goodVals] using hrest
  constructor
  · intro l ls hf
    show parseTemps (l :: ls) = parseTemps ls
    unfold parseTemps
    simp [collectTemps, hf]
  · intro lines h
    have hc := hcollect lines h
    show parseTemps lines = _
    unfold parseTemps
    rw [hc]
    cases goodVals lines with
    | nil => rfl
    | cons t ts => rfl

/-- Witness for `c3_amended`: the unparsable line `abc` is discarded
without affecting the reading, and a clean two-sensor output yields the
maximum 60.5. -/
theorem c3_witness :
    get_gpu_temperature (some ⟨0, ["abc".data, "50".data]⟩) =
      get_gpu_temperature (some ⟨0, ["50".data]⟩) ∧
    get_gpu_temperature (some ⟨0, ["50".data, "60.5".data]⟩) = some (mkRat 605 10) := by
  constructor
  · exact c3_amended.1 ("abc".data) ["50".data] (by decide)
  · rw [c3_amended.2 ["50".data, "60.5".data] (by decide)]
    decide

/-- Claim C4, counterexample: with an empty configured name list, a
process whose command line contains `trex` still matches through the
hard-coded command-line check, so the matcher does not return the
empty set. -/
theorem c4_counterexample :
    find_trex_processes [] [⟨5, "python".data, some ["trex".data], true⟩] =
      [⟨5, "python".data, some ["trex".data], true⟩] ∧
    find_trex_processes [] [⟨5, "python".data, some ["trex".data], true⟩] ≠ [] := by
  decide

/-- Claim C4, amended: with an empty configured name list, name-based
matching never succeeds, and a process matches exactly when it is
accessible and its lower-cased joined command line contains the
hard-coded substrings `t-rex` or `trex`. -/
theorem c4_amended (procs : List ProcInfo) :
    find_trex_processes [] procs =
      procs.filter (fun p => p.accessible && cmdlineMatch p) := by
  simp [find_trex_processes, nameMatch]

/-- Filtering the outcome list on one pid counts that pid's occurrences
among the targets. -/
theorem filter_pid_length (f : ProcBehavior → Outcome) (x : Nat) :
    ∀ l : List ProcBehavior,
      ((l.map (fun q => (q.pid, f q))).filter (fun o => o.1 == x)).length =
        (l.map ProcBehavior.pid).count x := by
  intro l
  induction l with
  | nil => simp
  | cons q t ih =>
    by_cases h : q.pid = x
    · simp [List.filter_cons, List.count_cons, h, ih]
    · simp [List.filter_cons, List.count_cons, h, ih, Ne.symm h]

/-- Claim C5, counterexample: a target whose interrupt send is denied
and whose terminate fallback is also denied ends in the fifth,
undocumented state (left alive and skipped), and the function's actual
return value is the boolean `True`, not a sequence of outcome records. -/
theorem c5_counterexample :
    (graceful_shutdown_trex true 30
      [⟨7, .denied, true, .denied, [], .ok⟩]).outcomes =
      [(7, Outcome.signalErrorSkipped)] ∧
    Outcome.signalErrorSkipped ∉ claimedFinalStates ∧
    (graceful_shutdown_trex true 30
      [⟨7, .denied, true, .denied, [], .ok⟩]).returned = true := by
  decide

/-- Claim C5, amended: the function returns the boolean `True` on every
input; each target contributes exactly one final-state record, in
order, and that state is one of the specification's four states or the
additional skipped-after-signal-error state. -/
theorem c5_amended (w : Bool) (g : Nat) (ps : List ProcBehavior)
    (h : (ps.map ProcBehavior.pid).Nodup) :
    (graceful_shutdown_trex w g ps).returned = true ∧
    (graceful_shutdown_trex w g ps).outcomes.map Prod.fst = ps.map ProcBehavior.pid ∧
    ∀ p ∈ ps,
      ((graceful_shutdown_trex w g ps).outcomes.filter
        (fun o => o.1 == p.pid)).length = 1 ∧
      outcomeOf w g ps p ∈ claimedFinalStates ++ [Outcome.signalErrorSkipped] := by
  cases ps with
  | nil => simp [graceful_shutdown_trex]
  | cons q t =>
    have hout : (graceful_shutdown_trex w g (q :: t)).outcomes
        = (q :: t).map (fun r => (r.pid, outcomeOf w g (q :: t) r)) := rfl
    refine ⟨rfl, ?_, ?_⟩
    · rw [hout]
      simp [List.map_map, Function.comp]
    · intro p hp
      constructor
      · rw [hout, filter_pid_length]
        exact List.count_eq_one_of_mem h (List.mem_map_of_mem ProcBehavior.pid hp)
      · cases h2 : outcomeOf w g (q :: t) p <;> decide

/-- Witness for `c5_amended`: two distinct targets, one exiting during
the settle delay and one already gone; each gets exactly one record. -/
theorem c5_witness :
    ((graceful_shutdown_trex false 30
      [⟨1, .ok, false, .ok, [], .ok⟩, ⟨2, .gone, false, .gone, [], .ok⟩]).outcomes.filter
        (fun o => o.1 == 1)).length = 1 ∧
    (graceful_shutdown_trex false 30
      [⟨1, .ok, false, .ok, [], .ok⟩, ⟨2, .gone, false, .gone, [], .ok⟩]).returned = true := by
  have h := c5_amended false 30
    [⟨1, .ok, false, .ok, [], .ok⟩, ⟨2, .gone, false, .gone, [], .ok⟩] (by decide)
  exact ⟨(h.2.2 ⟨1, .ok, false, .ok, [], .ok⟩ (by decide)).1, h.1⟩

/-- Claim C6, counterexample: on the Windows branch, a process that
vanishes mid-send raises `NoSuchProcess`, which the inner handler
(`OSError`, `AccessDenied`) does not catch, so no terminate signal is
sent; the process is instead recorded as already terminated. -/
theorem c6_counterexample :
    (⟨3, SigRes.gone, true, SigRes.ok, [], SigRes.ok⟩ : ProcBehavior).sendRes ≠ SigRes.ok ∧
    (interruptStep true ⟨3, SigRes.gone, true, SigRes.ok, [], SigRes.ok⟩).termCalled = false ∧
    (interruptStep true ⟨3, SigRes.gone, true, SigRes.ok, [], SigRes.ok⟩).phase = IPhase.gone := by
  decide

/-- Claim C6, amended: on Unix every interrupt-send failure escalates
immediately to a terminate call with zero settle sleep; on Windows,
permission-denied and OS-error failures escalate immediately with zero
settle sleep, but a process vanished mid-send gets no terminate call
and is treated as already terminated; a successful send on either
platform sleeps the 2-second settle delay and calls no terminate in the
interrupt phase. -/
theorem c6_amended (p : ProcBehavior) :
    (p.sendRes ≠ SigRes.ok →
      (interruptStep false p).termCalled = true ∧ (interruptStep false p).sleep = 0) ∧
    (p.sendRes = SigRes.denied ∨ p.sendRes = SigRes.oserr →
      (interruptStep true p).termCalled = true ∧ (interruptStep true p).sleep = 0) ∧
    (p.sendRes = SigRes.gone →
      (interruptStep true p).termCalled = false ∧
      (interruptStep true p).phase = IPhase.gone) ∧
    (p.sendRes = SigRes.ok →
      (interruptStep false p).sleep = 2 ∧ (interruptStep false p).termCalled = false ∧
      (interruptStep true p).sleep = 2 ∧ (interruptStep true p).termCalled = false) := by
  rcases p with ⟨pid, s, a, t, sch, k⟩
  cases s <;> cases a <;> cases t <;> simp [interruptStep, termFallback]

/-- Witness for `c6_amended`: a Unix target whose interrupt send is
denied gets an immediate terminate with no settle sleep. -/
theorem c6_witness :
    (interruptStep false ⟨4, SigRes.denied, true, SigRes.ok, [], SigRes.ok⟩).termCalled = true ∧
    (interruptStep false ⟨4, SigRes.denied, true, SigRes.ok, [], SigRes.ok⟩).sleep = 0 :=
  (c6_amended ⟨4, SigRes.denied, true, SigRes.ok, [], SigRes.ok⟩).1 (by decide)

/-- A countdown over targets all dead at check `k` sleeps at most until
check `k`. -/
theorem countdown_break (T : List ProcBehavior) (k : Nat)
    (hk : aliveCount T k = 0) :
    ∀ (fuel j : Nat), j ≤ k → (countdown T fuel j).1 ≤ 5 * (k - j) := by
  intro fuel
  induction fuel with
  | zero => intro j hj; simp [countdown]
  | succ n ih =>
    intro j hj
    by_cases h : aliveCount T j = 0
    · simp [countdown, h]
    · have hjk : j < k := by
        rcases Nat.lt_or_ge j k with h1 | h1
        · exact h1
        · have h2 : j = k := Nat.le_antisymm hj h1
          rw [h2] at h
          exact absurd hk h
      have h3 := ih (j + 1) hjk
      simp only [countdown, h, if_false]
      omega

/-- No process alive at check `k` means the alive count is zero. -/
theorem aliveCount_eq_zero (k : Nat) :
    ∀ T : List ProcBehavior, (∀ p ∈ T, aliveAt p k = false) → aliveCount T k = 0 := by
  intro T
  induction T with
  | nil => intro h; rfl
  | cons q t ih =>
    intro h
    have hq : aliveAt q k = false := h q (List.mem_cons_self q t)
    have ht := ih (fun p hp => h p (List.mem_cons_of_mem q hp))
    simpa [aliveCount, List.filter_cons, hq] using ht

/-- Members of the terminated list are targets whose interrupt phase
appended them. -/
theorem mem_terminatedOf (w : Bool) (ps : List ProcBehavior) (p : ProcBehavior)
    (hp : p ∈ terminatedOf w ps) :
    p ∈ ps ∧ (interruptStep w p).phase = IPhase.appended := by
  have h := List.mem_filter.mp hp
  simpa using h

/-- Claim C7: if every appended target is observed dead at countdown
check `k`, the grace-period wait sleeps at most `5 * k` seconds; in
particular, with all targets dead at the first check (for example
because all exited during the settle delay), the grace-period wait
contributes zero sleep. -/
theorem c7_early_exit (w : Bool) (g : Nat) (ps : List ProcBehavior) (k : Nat)
    (h : ∀ p ∈ ps, (interruptStep w p).phase = IPhase.appended → aliveAt p k = false) :
    (graceful_shutdown_trex w g ps).graceSleep ≤ 5 * k ∧
    (k = 0 → (graceful_shutdown_trex w g ps).graceSleep = 0) := by
  have hmain : (graceful_shutdown_trex w g ps).graceSleep ≤ 5 * k := by
    cases ps with
    | nil => simp [graceful_shutdown_trex]
    | cons q t =>
      have h1 : (graceful_shutdown_trex w g (q :: t)).graceSleep
          = graceSleepOf w g (q :: t) := rfl
      rw [h1]
      unfold graceSleepOf gracePhase
      by_cases hT : (terminatedOf w (q :: t)).isEmpty
      · simp [hT]
      · simp only [hT, Bool.false_eq_true, if_false]
        have hz : aliveCount (terminatedOf w (q :: t)) k = 0 := by
          apply aliveCount_eq_zero
          intro p hp
          have hm := mem_terminatedOf w (q :: t) p hp
          exact h p hm.1 hm.2
        have h2 := countdown_break (terminatedOf w (q :: t)) k hz (rangeLen g) 0
          (Nat.zero_le k)
        omega
  exact ⟨hmain, fun hk => by rw [hk] at hmain; omega⟩

/-- Witness for `c7_early_exit`: one target appended by the interrupt
phase but already dead at the first countdown check; no grace sleep. -/
theorem c7_witness :
    (graceful_shutdown_trex false 30
      [⟨2, SigRes.ok, true, SigRes.ok, [], SigRes.ok⟩]).graceSleep = 0 :=
  (c7_early_exit false 30 [⟨2, SigRes.ok, true, SigRes.ok, [], SigRes.ok⟩] 0
    (by decide)).2 rfl

/-- An `any` over lower-cased entries equals the `any` over the
lower-cased list. -/
theorem any_lower_map (ns : List Str) (L : Str) :
    (ns.any fun m => strHas L (lowerStr m)) = ((ns.map lowerStr).any fun m => strHas L m) := by
  induction ns with
  | nil => rfl
  | cons a t ih => simp [List.any_cons, ih]

/-- Claim C8: name matching depends only on the lower-cased forms of
the configured names and the display name — both sides are lower-cased
before the containment test — and concretely a process named
`T-Rex.EXE` matches the target list holding `t-rex`. -/
theorem c8_case_insensitive :
    (∀ (ns1 ns2 : List Str) (n1 n2 : Str),
      ns1.map lowerStr = ns2.map lowerStr → lowerStr n1 = lowerStr n2 →
      nameMatch ns1 n1 = nameMatch ns2 n2) ∧
    find_trex_processes ["t-rex".data] [⟨9, "T-Rex.EXE".data, none, true⟩]
      = [⟨9, "T-Rex.EXE".data, none, true⟩] := by
  constructor
  · intro ns1 ns2 n1 n2 h1 h2
    unfold nameMatch
    rw [h2, any_lower_map, any_lower_map, h1]
  · decide

/-- Witness for `c8_case_insensitive`: upper-cased target list and
display name match exactly as their lower-cased forms do, and the
`T-Rex.EXE` process is selected. -/
theorem c8_witness :
    nameMatch ["T-REX".data] ("Trex".data) = nameMatch ["t-rex".data] ("TREX".data) ∧
    find_trex_processes ["t-rex".data] [⟨9, "T-Rex.EXE".data, none, true⟩]
      = [⟨9, "T-Rex.EXE".data, none, true⟩] :=
  ⟨c8_case_insensitive.1 ["T-REX".data] ["t-rex".data] ("Trex".data) ("TREX".data)
    (by decide) (by decide),
   c8_case_insensitive.2⟩

/-- Claim C9: a missing or malformed configuration document loads as
the dataclass defaults, the write-defaults document loads back as those
same defaults, and the defaults are exactly threshold 85, interval 10,
grace period 30, the four T-Rex name variants, and log level INFO. -/
theorem c9_defaults :
    load_config none = defaultConfig ∧
    load_config (some save_default_config) = defaultConfig ∧
    defaultConfig = ⟨85, 10, 30,
      ["t-rex.exe".data, "trex.exe".data, "t-rex".data, "trex".data],
      "INFO".data⟩ := by
  refine ⟨rfl, ?_, rfl⟩
  decide

/-- Claim C10: in the dry-run branch, a sampled reading of exactly 0 is
routed to the could-not-read report, because Python's `if temp:`
truthiness test is false for the float 0.0 just as it is for `None`. -/
theorem c10_zero_truthiness (cfg : Config) (procs : List ProcInfo) :
    dryRunReport cfg (some 0) procs = DryRunReport.couldNotRead := by
  rfl

end GpuWatchdog
